import Mathlib

/-!
Verification development for the `pyver` version-constraint resolver
(`src/pyver/lib.py`): a shallow embedding of its `Version`, `Require` and
`PyVer` classes, followed by theorems about the embedded operations.

The source is Python 2.  Strings are modelled as `String` at the interface
and manipulated through their underlying `List Char`, so that every
operation is a structurally recursive, kernel-evaluable function.
-/

set_option autoImplicit false

namespace PyVerLib

/-- The exception kinds raised by `lib.py`, plus the builtin Python errors
(`IndexError`, `AttributeError`) that some code paths can raise. -/
inductive PyErr where
  | vesionMismatch        -- `VesionMismatchException` (sic, spelled as in the source)
  | versionNotFound       -- `VersionNotFoundException`
  | invalidRequireString  -- `InvalidRequireString`
  | invalidVersionNumber  -- `InvalidVersionNumber`
  | indexError            -- builtin IndexError
  | attributeError        -- builtin AttributeError
  deriving DecidableEq

/-! ### Python string primitives, on `List Char` -/

/-- Full split of a character list on a separator, Python `str.split(sep)`:
always returns at least one (possibly empty) field. -/
def splitChar (sep : Char) : List Char → List (List Char)
  | [] => [[]]
  | c :: rest =>
      match splitChar sep rest with
      | [] => [[]]  -- unreachable: splitChar never returns []
      | f :: fs => if c = sep then [] :: f :: fs else (c :: f) :: fs

/-- Re-join fields with `'.'`, the inverse of splitting on a dot. -/
def joinDots : List (List Char) → List Char
  | [] => []
  | [f] => f
  | f :: g :: rest => f ++ '.' :: joinDots (g :: rest)

/-- Python `s.split(".", 2)`: at most two splits are performed, the third
field keeps any remaining dots. -/
def pySplitDot2 (l : List Char) : List (List Char) :=
  match splitChar '.' l with
  | a :: b :: c :: rest => [a, b, joinDots (c :: rest)]
  | fields => fields

/-- Python `str.strip()` of whitespace, as performed by `int()`. -/
def pyStrip (l : List Char) : List Char :=
  ((l.dropWhile Char.isWhitespace).reverse.dropWhile Char.isWhitespace).reverse

/-- A non-empty all-digit character list. -/
def isDigits (l : List Char) : Bool :=
  !l.isEmpty && l.all Char.isDigit

/-- Value of an all-digit character list, base 10. -/
def digitsToNat (l : List Char) : Nat :=
  l.foldl (fun a c => a * 10 + (c.toNat - 48)) 0

/-- Python 2 `int(s)` (base 10): strip surrounding whitespace, accept an
optional sign followed by one or more decimal digits; anything else raises
`ValueError`, modelled as `none`. -/
def pyInt (l : List Char) : Option Int :=
  match pyStrip l with
  | [] => none
  | c :: rest =>
      if c = '-' then (if isDigits rest then some (-(digitsToNat rest : Int)) else none)
      else if c = '+' then (if isDigits rest then some (digitsToNat rest : Int) else none)
      else if isDigits (c :: rest) then some (digitsToNat (c :: rest) : Int) else none

/-! ### `Version` -/

/-- Embeds `Version.__init__`: split the string on `"."` with maxsplit 2, parse each
field with `int()` into `version = [0, 0, 0]` (missing trailing fields keep
the default 0); any `int()` failure raises `InvalidVersionNumber`. -/
def parseVerTuple (s : String) : Except PyErr (Int × Int × Int) :=
  match (pySplitDot2 s.data).mapM pyInt with
  | none => Except.error PyErr.invalidVersionNumber
  | some xs => Except.ok (xs.getD 0 0, xs.getD 1 0, xs.getD 2 0)

/-- A `Version` object: the `(major, minor, patch)` tuple, the verbatim source
string (returned by `__str__`), and an allocation identifier `oid` modelling
Python object identity — the class defines no `__eq__`/`__ne__`/`__cmp__`, so
Python 2 comparisons between `Version` instances fall back to identity. -/
structure Version where
  oid : Nat
  tup : Int × Int × Int
  str : String
  deriving DecidableEq

/-- Construct a `Version` object (fresh identity `oid`) from a string. -/
def mkVersion (oid : Nat) (s : String) : Except PyErr Version :=
  (parseVerTuple s).map fun t => ⟨oid, t, s⟩

/-- Python 2 default `!=` between two `Version` instances: object identity. -/
def pyNeVersion (a b : Version) : Bool := a.oid != b.oid

/-- Python 2 default `==` between two `Version` instances: object identity. -/
def pyEqVersion (a b : Version) : Bool := a.oid == b.oid

/-- Python `<` on two `(Int, Int, Int)` tuples: lexicographic. -/
def tupLt (a b : Int × Int × Int) : Bool :=
  decide (a.1 < b.1 ∨ (a.1 = b.1 ∧ (a.2.1 < b.2.1 ∨ (a.2.1 = b.2.1 ∧ a.2.2 < b.2.2))))

/-- Python `<=` on two `(Int, Int, Int)` tuples. -/
def tupLe (a b : Int × Int × Int) : Bool :=
  tupLt a b || decide (a = b)

/-! ### `Require` -/

/-- The value reaching `Require.__init__` as `reqstr`.  Normally a string, but
the module-level `require` wrapper calls `_PYVER.require(module, versions)`
passing the whole varargs tuple as one positional argument, so the method's
`*reqs` re-packs it and each `Require` receives a tuple of strings. -/
inductive ReqArg where
  | str (s : String)
  | tup (ss : List String)
  deriving DecidableEq

/-- Embeds `Require.__get_op`: slice `req[0:2]`, compare with the two-character
operators (a tuple slice never equals a string, so for a tuple argument this
test is always false), else test `req[0:2][0]` against `">"`/`"<"` — on an
empty string or tuple that subscript raises `IndexError`. -/
def getOp : ReqArg → Except PyErr String
  | ReqArg.str s =>
      let op := s.data.take 2
      if op = ['>', '='] ∨ op = ['<', '='] ∨ op = ['=', '='] ∨ op = ['!', '='] then
        Except.ok (String.mk op)
      else
        match s.data with
        | [] => Except.error PyErr.indexError
        | c :: _ =>
            if c = '>' ∨ c = '<' then Except.ok (String.mk [c])
            else Except.error PyErr.invalidRequireString
  | ReqArg.tup ss =>
      match ss with
      | [] => Except.error PyErr.indexError
      | x :: _ =>
          if x = ">" ∨ x = "<" then Except.ok x
          else Except.error PyErr.invalidRequireString

/-- A `Require` object: the raw requirement argument, its operator, the bound
`Version` and the declaring caller's module name (diagnostics only). -/
structure Require where
  reqstr : ReqArg
  op : String
  version : Version
  caller : String
  deriving DecidableEq

/-- Embeds `Require.__init__`: classify the operator, then parse
`reqstr[len(op):]` as a `Version`.  When `reqstr` is a tuple (the wrapper-bug
path) the slice is again a tuple and `Version.__init__` calls `.split` on it,
raising `AttributeError`. -/
def mkRequire (oid : Nat) (reqstr : ReqArg) (caller : String) : Except PyErr Require := do
  let op ← getOp reqstr
  match reqstr with
  | ReqArg.str s =>
      let v ← mkVersion oid (String.mk (s.data.drop op.data.length))
      Except.ok ⟨reqstr, op, v, caller⟩
  | ReqArg.tup _ => Except.error PyErr.attributeError

/-- Embeds `Require.is_compatible(otherVersion)`: dispatch on the stored operator,
comparing the stored bound tuple (left operand) with the candidate tuple
(right operand) exactly as the source lines do. -/
def Require.is_compatible (r : Require) (other : Version) : Except PyErr Bool :=
  if r.op = "==" then Except.ok (decide (r.version.tup = other.tup))
  else if r.op = "!=" then Except.ok (decide (r.version.tup ≠ other.tup))
  else if r.op = "<=" then Except.ok (tupLe other.tup r.version.tup)  -- bound >= candidate
  else if r.op = ">=" then Except.ok (tupLe r.version.tup other.tup)  -- bound <= candidate
  else if r.op = "<" then Except.ok (tupLt other.tup r.version.tup)   -- bound > candidate
  else if r.op = ">" then Except.ok (tupLt r.version.tup other.tup)   -- bound < candidate
  else Except.error PyErr.invalidRequireString

/-! ### `PyVer` resolver state -/

/-- Embeds `posixpath.join(a, b)`: an absolute second component resets the result;
otherwise concatenate with a `/` unless one is already in place. -/
def pyPathJoin (a b : String) : String :=
  if b.data.head? = some '/' then b
  else if a.data = [] ∨ a.data.getLast? = some '/' then a ++ b
  else a ++ "/" ++ b

/-- Embeds `os.path.join(repos, module, str(version))` as in `__link_module`. -/
def repoPath (repo module verStr : String) : String :=
  pyPathJoin (pyPathJoin repo module) verStr

/-- The mutable state of the `PyVer` singleton: the `__use` dict (module →
linked `Version`), the `__require` dict (module → list of `Require`), the
`__repos` search path, the `__local` staging directory, the symlinks created
so far as (target, link name) pairs, and `nextId`, the allocation counter
backing Python object identity for `Version` instances (bookkeeping for the
embedding, not resolver data). -/
structure PyVerState where
  useMap : List (String × Version)
  reqMap : List (String × List Require)
  repos : List String
  localDir : String
  links : List (String × String)
  nextId : Nat
  deriving DecidableEq

/-- Python dict lookup: `d[k]`, `none` modelling a raised `KeyError`. -/
def dictGet {α : Type} (m : List (String × α)) (k : String) : Option α :=
  (m.find? (fun p => p.1 = k)).map (fun p => p.2)

/-- Python `d.has_key(k)`. -/
def hasKey {α : Type} (m : List (String × α)) (k : String) : Bool :=
  (m.find? (fun p => p.1 = k)).isSome

/-- Embeds the `self.__require[module].extend(...)` target update: append to the list
stored at an existing key. -/
def dictAppendAt (m : List (String × List Require)) (k : String) (v : Require) :
    List (String × List Require) :=
  m.map (fun p => if p.1 = k then (p.1, p.2 ++ [v]) else p)

/-- Embeds `PyVer.__init__`: empty dicts, repositories taken from the colon-separated
`PYVERPATH` environment value with empty segments discarded, and a fresh
staging directory (its path supplied here, `tempfile.mkdtemp` being external). -/
def PyVer.init (pyverPath : String) (localDir : String) : PyVerState :=
  { useMap := []
    reqMap := []
    repos := ((splitChar ':' pyverPath.data).filter (fun f => f.length ≠ 0)).map String.mk
    localDir := localDir
    links := []
    nextId := 0 }

/-- Embeds `PyVer.check_requires`: look up `self.__require[module]` — a `KeyError`
(absent key) is caught and treated as success; otherwise scan the recorded
requirements in order and succeed at the first compatible one; if the scan
finishes with no match (in particular when the list is empty), raise
`VesionMismatchException`. -/
def checkLoop (ver : Version) : List Require → Except PyErr Bool
  | [] => Except.ok false
  | r :: rest =>
      match r.is_compatible ver with
      | Except.error e => Except.error e
      | Except.ok true => Except.ok true
      | Except.ok false => checkLoop ver rest

def check_requires (st : PyVerState) (module : String) (ver : Version) :
    Except PyErr Unit :=
  match dictGet st.reqMap module with
  | none => Except.ok Unit.unit  -- KeyError: no versions loaded yet
  | some reqs =>
      match checkLoop ver reqs with
      | Except.error e => Except.error e
      | Except.ok true => Except.ok Unit.unit
      | Except.ok false => Except.error PyErr.vesionMismatch

/-- Embeds `PyVer.__link_module`: search `self.__repos` in order for an existing
`repo/module/str(version)` path (`fs` is the `os.path.exists` oracle); at the
first hit create the symlink and record `self.__use[module]`; otherwise raise
`VersionNotFoundException`. -/
def link_module (fs : String → Bool) (st : PyVerState) (module : String)
    (version : Version) : Except PyErr Unit × PyVerState :=
  match st.repos.find? (fun repo => fs (repoPath repo module version.str)) with
  | some repo =>
      (Except.ok Unit.unit,
       { st with
          links := st.links ++ [(repoPath repo module version.str, pyPathJoin st.localDir module)]
          useMap := st.useMap ++ [(module, version)] })
  | none => (Except.error PyErr.versionNotFound, st)

/-- Embeds `PyVer.use`: parse the version string into a fresh `Version` object, check
requirements, then consult `self.__use[module]`: on a hit, compare the stored
object with the fresh one using Python 2 default `!=` (object identity, since
`Version` defines no comparison methods) and raise `VesionMismatchException`
when they differ; on a `KeyError`, link the module. -/
def PyVer.use (fs : String → Bool) (st : PyVerState) (module version : String) :
    Except PyErr Unit × PyVerState :=
  match mkVersion st.nextId version with
  | Except.error e => (Except.error e, st)
  | Except.ok ver =>
      let st1 := { st with nextId := st.nextId + 1 }
      match check_requires st1 module ver with
      | Except.error e => (Except.error e, st1)
      | Except.ok _ =>
          match dictGet st1.useMap module with
          | some loaded_ver =>
              if pyNeVersion loaded_ver ver then (Except.error PyErr.vesionMismatch, st1)
              else (Except.ok Unit.unit, st1)
          | none => link_module fs st1 module ver

/-- Embeds `list.extend(generator)` in `PyVer.require`: the generator builds one
`Require` per element of `reqs`; items built before a failure are already
appended when the exception propagates. -/
def extendEach (module caller : String) :
    PyVerState → List ReqArg → Except PyErr Unit × PyVerState
  | st, [] => (Except.ok Unit.unit, st)
  | st, r :: rest =>
      match mkRequire st.nextId r caller with
      | Except.error e => (Except.error e, st)
      | Except.ok req =>
          extendEach module caller
            { st with
                nextId := st.nextId + 1
                reqMap := dictAppendAt st.reqMap module req }
            rest

/-- Embeds `PyVer.require(module, *reqs)`: ensure `self.__require[module]` exists
(created empty if absent), then extend it with a `Require` for each element of
`reqs`.  The caller's module name, obtained in the source by stack inspection,
is passed in explicitly. -/
def PyVer.require (st : PyVerState) (module : String) (reqs : List ReqArg)
    (caller : String) : Except PyErr Unit × PyVerState :=
  let st' := if hasKey st.reqMap module then st
             else { st with reqMap := st.reqMap ++ [(module, [])] }
  extendEach module caller st' reqs

/-! ### Module-level public functions -/

/-- Module-level `use(module, version)`: delegates to `_PYVER.use`. -/
def use (fs : String → Bool) (st : PyVerState) (module version : String) :
    Except PyErr Unit × PyVerState :=
  PyVer.use fs st module version

/-- Module-level `require(module, *versions)`: the source calls
`_PYVER.require(module, versions)`, passing the varargs **tuple** as a single
positional argument, so the method's own `*reqs` receives the one-element
tuple `(versions,)` and each requirement built is the whole tuple of strings. -/
def require (st : PyVerState) (module : String) (versions : List String)
    (caller : String) : Except PyErr Unit × PyVerState :=
  PyVer.require st module [ReqArg.tup versions] caller

/-- The method names defined by `class PyVer` in the source. -/
def pyVerMethodNames : List String :=
  ["__init__", "use", "require", "shutdown", "check_requires", "overlay",
   "_PyVer__link_module"]

/-- Attribute lookup `_PYVER.<name>`: raises `AttributeError` when the class
defines no such method. -/
def PyVer.getattrMethod (name : String) : Except PyErr String :=
  if pyVerMethodNames.contains name then Except.ok name
  else Except.error PyErr.attributeError

/-- Module-level `platform(name, version)`: evaluates `_PYVER.platform`, an
attribute the `PyVer` class never defines, so the lookup itself raises before
any argument is used or any state is touched. -/
def platform (st : PyVerState) (_name _version : String) :
    Except PyErr Unit × PyVerState :=
  match PyVer.getattrMethod "platform" with
  | Except.error e => (Except.error e, st)
  | Except.ok _ => (Except.error PyErr.attributeError, st)

/-- The six operator strings `Require.__get_op` can return for a string
argument of the normal form. -/
def validOp (op : String) : Prop :=
  op = "==" ∨ op = "!=" ∨ op = "<=" ∨ op = ">=" ∨ op = "<" ∨ op = ">"

instance (op : String) : Decidable (validOp op) := by
  unfold validOp; infer_instance

/-! ### Concrete fixtures used by the theorems below -/

deriving instance DecidableEq for Except

/-- An `os.path.exists` oracle under which every path exists. -/
def fsAll : String → Bool := fun _ => true

/-- An `os.path.exists` oracle under which no path exists. -/
def fsNone : String → Bool := fun _ => false

/-- A fresh resolver with a single repository `/repo`. -/
def stOneRepo : PyVerState := PyVer.init "/repo" "/stage"

/-- The state after the method call `PyVer.require("x")` with no constraint
strings: the `__require["x"]` entry is created and left empty. -/
def stEmptyReq : PyVerState := (PyVer.require stOneRepo "x" [] "m").2

/-- The state after the method calls `PyVer.require("x", ">=1.0.0")` and
`PyVer.require("x", "<2.0.0")` (equivalently one call with both strings). -/
def stReqX : PyVerState :=
  (PyVer.require stOneRepo "x" [ReqArg.str ">=1.0.0", ReqArg.str "<2.0.0"] "m").2

/-- The two `Require` objects recorded in `stReqX` for module `x`. -/
def reqsX : List Require :=
  [⟨ReqArg.str ">=1.0.0", ">=", ⟨0, (1, 0, 0), "1.0.0"⟩, "m"⟩,
   ⟨ReqArg.str "<2.0.0", "<", ⟨1, (2, 0, 0), "2.0.0"⟩, "m"⟩]

/-- The `Require` parsed from `">=1.2.0"`. -/
def reqGe12 : Require := ⟨ReqArg.str ">=1.2.0", ">=", ⟨0, (1, 2, 0), "1.2.0"⟩, "m"⟩

/-- The `Require` parsed from `"<2.0.0"`. -/
def reqLt2 : Require := ⟨ReqArg.str "<2.0.0", "<", ⟨0, (2, 0, 0), "2.0.0"⟩, "m"⟩

/-- The `Require` parsed from `"==1.0.0"`. -/
def reqEq1 : Require := ⟨ReqArg.str "==1.0.0", "==", ⟨0, (1, 0, 0), "1.0.0"⟩, "m"⟩

/-! ### Claim theorems -/

/-- C1: claim refuted. The public `require(module, constraintStrings...)` never succeeds on
valid constraint strings: the wrapper passes the varargs tuple itself to
`PyVer.require`, so `Require.__get_op` receives a tuple, every string-equality
test against an operator fails, and `InvalidRequireString` is raised — after
the empty `requirements["x"]` entry has already been created.  Evaluated at
`require("x", ">=1.0.0")` and `require("x", ">=1.0.0", "<2.0.0")`. -/
theorem c1_public_require_raises :
    (require stOneRepo "x" [">=1.0.0"] "caller").1
        = Except.error PyErr.invalidRequireString
    ∧ (require stOneRepo "x" [">=1.0.0", "<2.0.0"] "caller").1
        = Except.error PyErr.invalidRequireString
    ∧ (require stOneRepo "x" [">=1.0.0"] "caller").2.reqMap = [("x", [])] := by
  decide

/-- C2: claim refuted. `Use` is not idempotent: after a successful `use("x", "1.5.0")`,
repeating the identical call raises `VesionMismatchException`, because
`Version` defines no comparison methods and `loaded_ver != ver` is Python 2
object identity, which is always true for the freshly parsed candidate. -/
theorem c2_second_use_same_version_raises :
    (use fsAll stOneRepo "x" "1.5.0").1 = Except.ok Unit.unit
    ∧ (use fsAll (use fsAll stOneRepo "x" "1.5.0").2 "x" "1.5.0").1
        = Except.error PyErr.vesionMismatch := by
  decide

/-- C4 counterexample. The claim says an empty `requirements[module]` list
makes `CheckRequires` succeed trivially; in the code a present-but-empty list
(created by a `require` call with zero constraint strings) makes the scan find
no compatible requirement, and `VesionMismatchException` is raised. -/
theorem c4_empty_reqlist_raises :
    dictGet stEmptyReq.reqMap "x" = some []
    ∧ check_requires stEmptyReq "x" ⟨9, (1, 0, 0), "1.0.0"⟩
        = Except.error PyErr.vesionMismatch := by
  decide

/-- C5 counterexample. The claim says `Parse("1.2.3.4")` succeeds with
`(1, 2, 3)`; in the code `split(".", 2)` leaves the third field as `"3.4"`,
`int("3.4")` fails, and `InvalidVersionNumber` is raised. -/
theorem c5_fourth_component_rejected :
    parseVerTuple "1.2.3.4" = Except.error PyErr.invalidVersionNumber := by
  decide

/-- C6 counterexample. Two `Version` objects parsed from the same string
`"1.0.0"` have equal tuples, yet Python equality between them (object
identity, since the class defines no `__eq__`/`__cmp__`) is false — refuting
"a equals b if and only if their tuples are equal". -/
theorem c6_equality_is_identity :
    mkVersion 0 "1.0.0" = Except.ok ⟨0, (1, 0, 0), "1.0.0"⟩
    ∧ mkVersion 1 "1.0.0" = Except.ok ⟨1, (1, 0, 0), "1.0.0"⟩
    ∧ (⟨0, (1, 0, 0), "1.0.0"⟩ : Version).tup = (⟨1, (1, 0, 0), "1.0.0"⟩ : Version).tup
    ∧ pyEqVersion ⟨0, (1, 0, 0), "1.0.0"⟩ ⟨1, (1, 0, 0), "1.0.0"⟩ = false
    ∧ pyNeVersion ⟨0, (1, 0, 0), "1.0.0"⟩ ⟨1, (1, 0, 0), "1.0.0"⟩ = true := by
  decide

/-- C9 counterexample. Parsing succeeds on a dotted string with a negative
component: `int()` accepts a sign, so `Version("1.-2.3")` constructs the tuple
`(1, -2, 3)` — refuting "parsing never succeeds on a negative component". -/
theorem c9_negative_component_parses :
    parseVerTuple "1.-2.3" = Except.ok (1, -2, 3) := by
  decide

/-- C9 amended. Version components are arbitrary (optionally signed)
integers: a successful parse may return negative components, and missing
trailing fields still default to 0. -/
theorem c9_components_are_signed_integers :
    parseVerTuple "1.-2.3" = Except.ok (1, -2, 3)
    ∧ parseVerTuple "-1.2" = Except.ok (-1, 2, 0)
    ∧ pyInt ['-', '2'] = some (-2) := by
  decide

/-- C10. The public `platform(name, version)` always raises
`AttributeError` with the resolver state untouched: it delegates to
`_PYVER.platform`, but `platform` is not among the methods the `PyVer` class
defines. -/
theorem c10_platform_attribute_error (st : PyVerState) (name version : String) :
    platform st name version = (Except.error PyErr.attributeError, st)
    ∧ pyVerMethodNames.contains "platform" = false := by
  exact ⟨rfl, by decide⟩


/-- With a recognised operator, `is_compatible` always returns a boolean. -/
theorem is_compatible_total (r : Require) (v : Version) (h : validOp r.op) :
    ∃ b, r.is_compatible v = Except.ok b := by
  obtain ⟨rs, op, rv, rc⟩ := r
  rcases h with rfl | rfl | rfl | rfl | rfl | rfl <;> exact ⟨_, rfl⟩

/-- The scan of `check_requires` never errors when every operator is valid. -/
theorem checkLoop_total (ver : Version) (reqs : List Require)
    (h : ∀ r ∈ reqs, ∃ b, r.is_compatible ver = Except.ok b) :
    ∃ b, checkLoop ver reqs = Except.ok b := by
  induction reqs with
  | nil => exact ⟨false, rfl⟩
  | cons r rest ih =>
      obtain ⟨b, hb⟩ := h r (List.mem_cons_self r rest)
      obtain ⟨b', hb'⟩ := ih (fun r' hr' => h r' (List.mem_cons_of_mem r hr'))
      cases b with
      | true => exact ⟨true, by simp [checkLoop, hb]⟩
      | false => exact ⟨b', by simp [checkLoop, hb, hb']⟩

/-- The scan returns `true` exactly when some requirement is compatible, and
`false` exactly when every requirement reports incompatible. -/
theorem checkLoop_spec (ver : Version) (reqs : List Require)
    (h : ∀ r ∈ reqs, ∃ b, r.is_compatible ver = Except.ok b) :
    (checkLoop ver reqs = Except.ok true ↔
       ∃ r ∈ reqs, r.is_compatible ver = Except.ok true)
    ∧ (checkLoop ver reqs = Except.ok false ↔
       ∀ r ∈ reqs, r.is_compatible ver = Except.ok false) := by
  induction reqs with
  | nil => simp [checkLoop]
  | cons r rest ih =>
      obtain ⟨b, hb⟩ := h r (List.mem_cons_self r rest)
      obtain ⟨ih1, ih2⟩ := ih (fun r' hr' => h r' (List.mem_cons_of_mem r hr'))
      cases b with
      | true =>
          have hstep : checkLoop ver (r :: rest) = Except.ok true := by
            simp [checkLoop, hb]
          rw [hstep]
          constructor
          · constructor
            · intro _; exact ⟨r, List.mem_cons_self r rest, hb⟩
            · intro _; rfl
          · constructor
            · intro hfalse; exact absurd hfalse (by decide)
            · intro hall
              have hr := hall r (List.mem_cons_self r rest)
              rw [hr] at hb
              exact absurd hb (by decide)
      | false =>
          have hstep : checkLoop ver (r :: rest) = checkLoop ver rest := by
            simp [checkLoop, hb]
          rw [hstep, ih1, ih2]
          constructor
          · constructor
            · rintro ⟨r', hr', hc⟩; exact ⟨r', List.mem_cons_of_mem r hr', hc⟩
            · rintro ⟨r', hr', hc⟩
              rcases List.mem_cons.mp hr' with rfl | hmem
              · rw [hc] at hb; exact absurd hb (by decide)
              · exact ⟨r', hmem, hc⟩
          · constructor
            · intro hall r' hr'
              rcases List.mem_cons.mp hr' with rfl | hmem
              · exact hb
              · exact hall r' hmem
            · intro hall r' hr'; exact hall r' (List.mem_cons_of_mem r hr')


/-- C3. With at least one recorded requirement (all well-formed, as every
`Require` built by `Require.__init__` is), `check_requires` succeeds exactly
when some recorded requirement is compatible with the candidate — the any-of
policy — and raises `VesionMismatchException` exactly when none is; no other
outcome is possible. -/
theorem c3_check_requires_any_of (st : PyVerState) (module : String)
    (ver : Version) (reqs : List Require)
    (hget : dictGet st.reqMap module = some reqs) (_hne : reqs ≠ [])
    (hops : ∀ r ∈ reqs, validOp r.op) :
    (check_requires st module ver = Except.ok Unit.unit ↔
       ∃ r ∈ reqs, r.is_compatible ver = Except.ok true)
    ∧ (check_requires st module ver = Except.error PyErr.vesionMismatch ↔
       ∀ r ∈ reqs, r.is_compatible ver = Except.ok false)
    ∧ (check_requires st module ver = Except.ok Unit.unit ∨
       check_requires st module ver = Except.error PyErr.vesionMismatch) := by
  have htot : ∀ r ∈ reqs, ∃ b, r.is_compatible ver = Except.ok b :=
    fun r hr => is_compatible_total r ver (hops r hr)
  obtain ⟨hspec1, hspec2⟩ := checkLoop_spec ver reqs htot
  obtain ⟨b, hb⟩ := checkLoop_total ver reqs htot
  have hcr : check_requires st module ver =
      (match checkLoop ver reqs with
       | Except.error e => Except.error e
       | Except.ok true => Except.ok Unit.unit
       | Except.ok false => Except.error PyErr.vesionMismatch) := by
    unfold check_requires
    rw [hget]
  cases b with
  | true =>
      rw [hcr, hb]
      refine ⟨?_, ?_, Or.inl rfl⟩
      · simp only [true_iff]
        exact hspec1.mp hb
      · constructor
        · intro hfalse; exact absurd hfalse (by decide)
        · intro hall
          have := (hspec2.mpr hall)
          rw [this] at hb
          exact absurd hb (by decide)
  | false =>
      rw [hcr, hb]
      refine ⟨?_, ?_, Or.inr rfl⟩
      · constructor
        · intro hfalse; exact absurd hfalse (by decide)
        · intro hex
          have := hspec1.mpr hex
          rw [this] at hb
          exact absurd hb (by decide)
      · simp only [true_iff]
        exact hspec2.mp hb

/-- Witness for C3 at the state recording `">=1.0.0"` and `"<2.0.0"` for
module `x` and the candidate `2.5.0`: the first requirement matches even
though the second fails, so the any-of check succeeds. -/
theorem c3_any_of_witness :
    (check_requires stReqX "x" ⟨5, (2, 5, 0), "2.5.0"⟩ = Except.ok Unit.unit ↔
       ∃ r ∈ reqsX, r.is_compatible ⟨5, (2, 5, 0), "2.5.0"⟩ = Except.ok true)
    ∧ (check_requires stReqX "x" ⟨5, (2, 5, 0), "2.5.0"⟩
         = Except.error PyErr.vesionMismatch ↔
       ∀ r ∈ reqsX, r.is_compatible ⟨5, (2, 5, 0), "2.5.0"⟩ = Except.ok false)
    ∧ (check_requires stReqX "x" ⟨5, (2, 5, 0), "2.5.0"⟩ = Except.ok Unit.unit ∨
       check_requires stReqX "x" ⟨5, (2, 5, 0), "2.5.0"⟩
         = Except.error PyErr.vesionMismatch) :=
  c3_check_requires_any_of stReqX "x" ⟨5, (2, 5, 0), "2.5.0"⟩ reqsX
    (by decide) (by decide) (by decide)


/-- A successful string parse yields the corresponding `Version` object. -/
theorem mkVersion_ok (oid : Nat) (s : String) (t : Int × Int × Int)
    (h : parseVerTuple s = Except.ok t) :
    mkVersion oid s = Except.ok ⟨oid, t, s⟩ := by
  unfold mkVersion
  rw [h]
  rfl

/-- C4 amended. If `requirements[module]` is absent, `check_requires`
succeeds trivially, and `Use` of a valid, locatable version succeeds for such
a module; but if `requirements[module]` is present as an empty list, the scan
matches nothing and `VesionMismatchException` is raised. -/
theorem c4_absent_requirements_permissive (fs : String → Bool) (st : PyVerState)
    (module verStr : String) (ver : Version) (t : Int × Int × Int) :
    (dictGet st.reqMap module = none →
       check_requires st module ver = Except.ok Unit.unit)
    ∧ (dictGet st.reqMap module = some [] →
       check_requires st module ver = Except.error PyErr.vesionMismatch)
    ∧ (dictGet st.reqMap module = none →
       dictGet st.useMap module = none →
       parseVerTuple verStr = Except.ok t →
       (∃ repo ∈ st.repos, fs (repoPath repo module verStr) = true) →
       (use fs st module verStr).1 = Except.ok Unit.unit) := by
  refine ⟨?_, ?_, ?_⟩
  · intro h
    unfold check_requires
    rw [h]
  · intro h
    unfold check_requires
    rw [h]
    rfl
  · intro hreq huse hparse hrepo
    have hsome : (st.repos.find? (fun repo => fs (repoPath repo module verStr))).isSome :=
      List.find?_isSome.mpr hrepo
    obtain ⟨rfound, hfind⟩ := Option.isSome_iff_exists.mp hsome
    unfold use PyVer.use
    rw [mkVersion_ok st.nextId verStr t hparse]
    dsimp only
    have hcr : check_requires { st with nextId := st.nextId + 1 } module
        ⟨st.nextId, t, verStr⟩ = Except.ok Unit.unit := by
      unfold check_requires
      dsimp only
      rw [hreq]
    rw [hcr]
    dsimp only
    have hget : dictGet ({ st with nextId := st.nextId + 1 } : PyVerState).useMap module
        = (none : Option Version) := huse
    rw [hget]
    unfold link_module
    dsimp only
    rw [hfind]


/-- C8. When parsing and the requirement check pass, the module is not yet
linked, and no configured repository contains `repo/module/version`, `Use`
fails with `VersionNotFoundException`; and whenever `Use` fails for any
reason, the resolver state is unchanged — the `__use` map, the created links,
the `__require` map, the repositories and the staging directory are exactly
those of the input state. -/
theorem c8_not_found_and_no_partial_state (fs : String → Bool) (st : PyVerState)
    (module verStr : String) (t : Int × Int × Int) :
    (parseVerTuple verStr = Except.ok t →
       check_requires st module ⟨st.nextId, t, verStr⟩ = Except.ok Unit.unit →
       dictGet st.useMap module = none →
       (∀ repo ∈ st.repos, fs (repoPath repo module verStr) = false) →
       (use fs st module verStr).1 = Except.error PyErr.versionNotFound)
    ∧ (∀ (e : PyErr) (st' : PyVerState),
       use fs st module verStr = (Except.error e, st') →
       st'.useMap = st.useMap ∧ st'.links = st.links ∧ st'.reqMap = st.reqMap
         ∧ st'.repos = st.repos ∧ st'.localDir = st.localDir) := by
  constructor
  · intro hparse hchk huse hno
    have hnone : st.repos.find? (fun repo => fs (repoPath repo module verStr)) = none := by
      rw [List.find?_eq_none]
      intro repo hrepo
      simp [hno repo hrepo]
    unfold use PyVer.use
    rw [mkVersion_ok st.nextId verStr t hparse]
    dsimp only
    have hcr : check_requires { st with nextId := st.nextId + 1 } module
        ⟨st.nextId, t, verStr⟩ = Except.ok Unit.unit := hchk
    rw [hcr]
    dsimp only
    have hget : dictGet ({ st with nextId := st.nextId + 1 } : PyVerState).useMap module
        = (none : Option Version) := huse
    rw [hget]
    unfold link_module
    dsimp only
    rw [hnone]
  · intro e st' h
    unfold use PyVer.use at h
    cases hm : mkVersion st.nextId verStr with
    | error e' =>
        rw [hm] at h
        dsimp only at h
        obtain ⟨-, rfl⟩ := Prod.mk.injEq .. ▸ h
        exact ⟨rfl, rfl, rfl, rfl, rfl⟩
    | ok ver =>
        rw [hm] at h
        dsimp only at h
        cases hc : check_requires { st with nextId := st.nextId + 1 } module ver with
        | error e' =>
            rw [hc] at h
            dsimp only at h
            obtain ⟨-, rfl⟩ := Prod.mk.injEq .. ▸ h
            exact ⟨rfl, rfl, rfl, rfl, rfl⟩
        | ok u =>
            rw [hc] at h
            dsimp only at h
            cases hg : dictGet ({ st with nextId := st.nextId + 1 } : PyVerState).useMap module with
            | some loaded_ver =>
                rw [hg] at h
                dsimp only at h
                by_cases hne : pyNeVersion loaded_ver ver = true
                · rw [if_pos hne] at h
                  obtain ⟨-, rfl⟩ := Prod.mk.injEq .. ▸ h
                  exact ⟨rfl, rfl, rfl, rfl, rfl⟩
                · rw [if_neg hne] at h
                  exact Except.noConfusion (congrArg Prod.fst h)
            | none =>
                rw [hg] at h
                dsimp only at h
                unfold link_module at h
                cases hf : ({ st with nextId := st.nextId + 1 } : PyVerState).repos.find?
                    (fun repo => fs (repoPath repo module ver.str)) with
                | some repo =>
                    rw [hf] at h
                    dsimp only at h
                    exact Except.noConfusion (congrArg Prod.fst h)
                | none =>
                    rw [hf] at h
                    dsimp only at h
                    obtain ⟨-, rfl⟩ := Prod.mk.injEq .. ▸ h
                    exact ⟨rfl, rfl, rfl, rfl, rfl⟩


/-- C6 amended. All version comparisons the code performs go through the
`tuple` attribute: on tuples, `tupLt` is a strict total order (irreflexive,
transitive, trichotomous, asymmetric) agreeing with lexicographic order on
`(major, minor, patch)`, `tupLe` is its reflexive closure, and
`(1,0,0) < (1,1,0) < (2,0,0)`; `Version` objects themselves, defining no
comparison methods, compare by object identity. -/
theorem c6_tuple_order_total (a b c : Int × Int × Int) :
    tupLt a a = false
    ∧ (tupLt a b = true → tupLt b c = true → tupLt a c = true)
    ∧ (tupLt a b = true ∨ a = b ∨ tupLt b a = true)
    ∧ (tupLt a b = true → tupLt b a = false)
    ∧ (tupLe a b = true ↔ (tupLt a b = true ∨ a = b))
    ∧ (tupLt a b = true ↔
        (a.1 < b.1 ∨ (a.1 = b.1 ∧ (a.2.1 < b.2.1 ∨ (a.2.1 = b.2.1 ∧ a.2.2 < b.2.2)))))
    ∧ tupLt (1, 0, 0) (1, 1, 0) = true ∧ tupLt (1, 1, 0) (2, 0, 0) = true := by
  obtain ⟨a1, a2, a3⟩ := a
  obtain ⟨b1, b2, b3⟩ := b
  obtain ⟨c1, c2, c3⟩ := c
  refine ⟨?_, ?_, ?_, ?_, ?_, ?_, by decide, by decide⟩ <;>
    simp only [tupLt, tupLe, Bool.or_eq_true, decide_eq_true_eq, decide_eq_false_iff_not, Prod.mk.injEq] <;>
    omega

/-- Witness for C6: transitivity applied at `(1,0,0) < (1,1,0) < (2,0,0)`. -/
theorem c6_tuple_order_witness : tupLt (1, 0, 0) (2, 0, 0) = true :=
  (c6_tuple_order_total (1, 0, 0) (1, 1, 0) (2, 0, 0)).2.1 (by decide) (by decide)

/-- C7. `is_compatible` evaluates the candidate against the bound with the
reversed convention of the source (`==` equal; `!=` not equal; `<=` bound ≥
candidate; `>=` bound ≤ candidate; `<` bound > candidate; `>` bound <
candidate), and on the worked examples: `">=1.2.0"` is satisfied by `1.2.0`
and `1.3.0` but not `1.1.0`; `"<2.0.0"` by `1.9.9` but not `2.0.0`; and
`"==1.0.0"` by exactly the candidates whose tuple is `(1,0,0)`. -/
theorem c7_reversed_convention (r : Require) (cand : Version) :
    (r.op = "==" → r.is_compatible cand = Except.ok (decide (r.version.tup = cand.tup)))
    ∧ (r.op = "!=" → r.is_compatible cand = Except.ok (decide (r.version.tup ≠ cand.tup)))
    ∧ (r.op = "<=" → r.is_compatible cand = Except.ok (tupLe cand.tup r.version.tup))
    ∧ (r.op = ">=" → r.is_compatible cand = Except.ok (tupLe r.version.tup cand.tup))
    ∧ (r.op = "<" → r.is_compatible cand = Except.ok (tupLt cand.tup r.version.tup))
    ∧ (r.op = ">" → r.is_compatible cand = Except.ok (tupLt r.version.tup cand.tup))
    ∧ mkRequire 0 (ReqArg.str ">=1.2.0") "m" = Except.ok reqGe12
    ∧ mkRequire 0 (ReqArg.str "<2.0.0") "m" = Except.ok reqLt2
    ∧ mkRequire 0 (ReqArg.str "==1.0.0") "m" = Except.ok reqEq1
    ∧ reqGe12.is_compatible ⟨7, (1, 2, 0), "1.2.0"⟩ = Except.ok true
    ∧ reqGe12.is_compatible ⟨7, (1, 3, 0), "1.3.0"⟩ = Except.ok true
    ∧ reqGe12.is_compatible ⟨7, (1, 1, 0), "1.1.0"⟩ = Except.ok false
    ∧ reqLt2.is_compatible ⟨7, (1, 9, 9), "1.9.9"⟩ = Except.ok true
    ∧ reqLt2.is_compatible ⟨7, (2, 0, 0), "2.0.0"⟩ = Except.ok false
    ∧ (∀ v : Version, reqEq1.is_compatible v = Except.ok true ↔ v.tup = (1, 0, 0)) := by
  obtain ⟨rs, op, rv, rc⟩ := r
  refine ⟨?_, ?_, ?_, ?_, ?_, ?_, by decide, by decide, by decide, by decide,
    by decide, by decide, by decide, by decide, ?_⟩
  · rintro rfl; rfl
  · rintro rfl; rfl
  · rintro rfl; rfl
  · rintro rfl; rfl
  · rintro rfl; rfl
  · rintro rfl; rfl
  · intro v
    unfold Require.is_compatible reqEq1
    constructor
    · intro hok
      have := Except.ok.inj hok
      exact of_decide_eq_true ((by exact this) : decide ((1, 0, 0) = v.tup) = true) |>.symm
    · intro hv
      rw [hv]
      rfl


/-- A character that fails the predicate survives `dropWhile`. -/
theorem mem_dropWhile_of_not {p : Char → Bool} {c : Char} (hc : p c = false) :
    ∀ {l : List Char}, c ∈ l → c ∈ l.dropWhile p := by
  intro l h
  induction l with
  | nil => cases h
  | cons x xs ih =>
      rw [List.dropWhile_cons]
      by_cases hx : p x = true
      · rw [if_pos hx]
        rcases List.mem_cons.mp h with rfl | hmem
        · rw [hc] at hx; cases hx
        · exact ih hmem
      · rw [if_neg hx]
        exact h

/-- Non-whitespace characters survive `str.strip()`. -/
theorem mem_pyStrip {c : Char} (hws : c.isWhitespace = false) {l : List Char}
    (h : c ∈ l) : c ∈ pyStrip l := by
  unfold pyStrip
  rw [List.mem_reverse]
  exact mem_dropWhile_of_not hws (List.mem_reverse.mpr (mem_dropWhile_of_not hws h))

/-- A list containing a non-digit is not all digits. -/
theorem isDigits_false_of_mem {l : List Char} {c : Char} (h : c ∈ l)
    (hc : c.isDigit = false) : isDigits l = false := by
  have hall : l.all Char.isDigit = false := by
    cases hl : l.all Char.isDigit
    · rfl
    · have := List.all_eq_true.mp hl c h
      rw [hc] at this
      cases this
  unfold isDigits
  rw [hall, Bool.and_false]

/-- Python `int()` fails on any string still containing a dot. -/
theorem pyInt_none_of_dot {l : List Char} (h : '.' ∈ l) : pyInt l = none := by
  have hs : '.' ∈ pyStrip l := mem_pyStrip (by decide) h
  unfold pyInt
  cases hder : pyStrip l with
  | nil => rfl
  | cons c rest =>
      rw [hder] at hs
      dsimp only
      by_cases hcm : c = '-'
      · rw [if_pos hcm]
        rcases List.mem_cons.mp hs with habs | hmem
        · rw [hcm] at habs
          exact absurd habs (by decide)
        · rw [isDigits_false_of_mem hmem (by decide)]
          rfl
      · rw [if_neg hcm]
        by_cases hcp : c = '+'
        · rw [if_pos hcp]
          rcases List.mem_cons.mp hs with habs | hmem
          · rw [hcp] at habs
            exact absurd habs (by decide)
          · rw [isDigits_false_of_mem hmem (by decide)]
            rfl
        · rw [if_neg hcp]
          rw [isDigits_false_of_mem hs (by decide)]
          rfl

/-- One failing field makes the whole field list fail to parse. -/
theorem mapM_pyInt_none {fields : List (List Char)} {f : List Char}
    (hmem : f ∈ fields) (hf : pyInt f = none) : fields.mapM pyInt = none := by
  induction fields with
  | nil => cases hmem
  | cons a rest ih =>
      rw [List.mapM_cons]
      rcases List.mem_cons.mp hmem with rfl | hmem'
      · rw [hf]
        rfl
      · cases ha : pyInt a with
        | none => rfl
        | some v =>
            rw [ih hmem']
            rfl


/-- C5 amended. Version parsing splits on `"."` at most twice: an input
with four or more dot-separated components leaves the extra dots inside the
third field, whose `int()` parse then fails with `InvalidVersionNumber` (so
`"1.2.3.4"` is rejected, not truncated); an input with exactly three
dot-separated integer fields parses to those three components. -/
theorem c5_split_at_most_twice (s : String) (a b c : List Char) (x y z : Int) :
    (4 ≤ (splitChar '.' s.data).length →
       parseVerTuple s = Except.error PyErr.invalidVersionNumber)
    ∧ (splitChar '.' s.data = [a, b, c] →
       pyInt a = some x → pyInt b = some y → pyInt c = some z →
       parseVerTuple s = Except.ok (x, y, z)) := by
  constructor
  · intro hlen
    obtain ⟨f1, f2, f3, f4, rest, hsp⟩ :
        ∃ f1 f2 f3 f4 rest, splitChar '.' s.data = f1 :: f2 :: f3 :: f4 :: rest := by
      rcases hsp : splitChar '.' s.data with _ | ⟨g1, _ | ⟨g2, _ | ⟨g3, _ | ⟨g4, grest⟩⟩⟩⟩
      · rw [hsp] at hlen; simp at hlen
      · rw [hsp] at hlen; simp at hlen
      · rw [hsp] at hlen; simp at hlen
      · rw [hsp] at hlen; simp at hlen
      · exact ⟨g1, g2, g3, g4, grest, rfl⟩
    have hthird : '.' ∈ joinDots (f3 :: f4 :: rest) := by
      show '.' ∈ f3 ++ '.' :: joinDots (f4 :: rest)
      exact List.mem_append_right f3 (List.mem_cons_self '.' (joinDots (f4 :: rest)))
    have hpy : pyInt (joinDots (f3 :: f4 :: rest)) = none := pyInt_none_of_dot hthird
    unfold parseVerTuple pySplitDot2
    rw [hsp]
    dsimp only
    rw [mapM_pyInt_none
      (show joinDots (f3 :: f4 :: rest) ∈ [f1, f2, joinDots (f3 :: f4 :: rest)] by simp)
      hpy]
  · intro hsp h1 h2 h3
    unfold parseVerTuple pySplitDot2
    rw [hsp]
    dsimp only [joinDots]
    rw [List.mapM_cons, h1, List.mapM_cons, h2, List.mapM_cons, h3, List.mapM_nil]
    rfl

/-- Witness for C5: `"1.2.3.4"` (four fields) is rejected, while `"1.2.3"`
parses to `(1, 2, 3)`. -/
theorem c5_split_witness :
    parseVerTuple "1.2.3.4" = Except.error PyErr.invalidVersionNumber
    ∧ parseVerTuple "1.2.3" = Except.ok (1, 2, 3) :=
  ⟨(c5_split_at_most_twice "1.2.3.4" [] [] [] 0 0 0).1 (by decide),
   (c5_split_at_most_twice "1.2.3" ['1'] ['2'] ['3'] 1 2 3).2
     (by decide) (by decide) (by decide) (by decide)⟩


/-- Witness for C4 at concrete states: module `z` with no requirements entry
passes `check_requires` and links via `Use`; module `x` with a recorded empty
list raises `VesionMismatchException`. -/
theorem c4_permissive_witness :
    check_requires stOneRepo "z" ⟨0, (1, 0, 0), "1.0.0"⟩ = Except.ok Unit.unit
    ∧ check_requires stEmptyReq "x" ⟨0, (1, 0, 0), "1.0.0"⟩
        = Except.error PyErr.vesionMismatch
    ∧ (use fsAll stOneRepo "z" "1.0.0").1 = Except.ok Unit.unit :=
  ⟨(c4_absent_requirements_permissive fsAll stOneRepo "z" "1.0.0"
      ⟨0, (1, 0, 0), "1.0.0"⟩ (1, 0, 0)).1 (by decide),
   (c4_absent_requirements_permissive fsAll stEmptyReq "x" "1.0.0"
      ⟨0, (1, 0, 0), "1.0.0"⟩ (1, 0, 0)).2.1 (by decide),
   (c4_absent_requirements_permissive fsAll stOneRepo "z" "1.0.0"
      ⟨0, (1, 0, 0), "1.0.0"⟩ (1, 0, 0)).2.2 (by decide) (by decide) (by decide)
      ⟨"/repo", by decide, by decide⟩⟩

/-- Witness for C7: the `">="` branch applied to `reqGe12` and candidate
`1.3.0`, and the `"=="` characterisation applied to `reqEq1` at `1.0.0`. -/
theorem c7_reversed_convention_witness :
    Require.is_compatible reqGe12 ⟨7, (1, 3, 0), "1.3.0"⟩
        = Except.ok (tupLe reqGe12.version.tup (1, 3, 0))
    ∧ Require.is_compatible reqEq1 ⟨7, (1, 0, 0), "1.0.0"⟩ = Except.ok true :=
  ⟨(c7_reversed_convention reqGe12 ⟨7, (1, 3, 0), "1.3.0"⟩).2.2.2.1 rfl,
   ((c7_reversed_convention reqEq1 ⟨7, (1, 0, 0), "1.0.0"⟩
      ).2.2.2.2.2.2.2.2.2.2.2.2.2.2 ⟨7, (1, 0, 0), "1.0.0"⟩).mpr rfl⟩

/-- Witness for C8: `use("y", "9.9.9")` with no repository containing the path
fails with `VersionNotFoundException` and leaves every resolver field of the
state unchanged. -/
theorem c8_not_found_witness :
    (use fsNone stOneRepo "y" "9.9.9").1 = Except.error PyErr.versionNotFound
    ∧ ((use fsNone stOneRepo "y" "9.9.9").2.useMap = stOneRepo.useMap
       ∧ (use fsNone stOneRepo "y" "9.9.9").2.links = stOneRepo.links
       ∧ (use fsNone stOneRepo "y" "9.9.9").2.reqMap = stOneRepo.reqMap
       ∧ (use fsNone stOneRepo "y" "9.9.9").2.repos = stOneRepo.repos
       ∧ (use fsNone stOneRepo "y" "9.9.9").2.localDir = stOneRepo.localDir) :=
  ⟨(c8_not_found_and_no_partial_state fsNone stOneRepo "y" "9.9.9" (9, 9, 9)).1
      (by decide) (by decide) (by decide) (by decide),
   (c8_not_found_and_no_partial_state fsNone stOneRepo "y" "9.9.9" (9, 9, 9)).2
      PyErr.versionNotFound ((use fsNone stOneRepo "y" "9.9.9").2) (by decide)⟩

end PyVerLib
